import Mathlib

/-!
Verification of the in-memory device/request registry of the SUKH-HACKER
parental-control relay server (an Express application).  The repository is a
sequence of snapshots of one evolving service; the embedding below translates
the snapshots the claims cite:

* namespace `Srv`  — the second snapshot inside `src/server.js` (the one that
  declares `deviceNotifications` and `frontCameraRequests`): device
  registration, battery/location/notification telemetry, and the front-camera
  capture-request protocol.
* namespace `Cam2` — the second snapshot inside `src/unnamed/part_001` (the
  camera-protocol revision with facing-prefixed request ids, the
  device-existence check and the bounded camera gallery).
* namespace `Del1` — the first snapshot inside `src/unnamed/part_001`, whose
  `DELETE /api/delete-device` handler is the cascading delete.

Modelling conventions (shared by all snapshots):

* JSON body values are modelled by `JsVal`; JavaScript truthiness (`!x`,
  `x || d`) is `truthy` / `jsOr`.  JavaScript property-key coercion
  (`obj[k]` stringifies `k`) is `asKey`.
* A JavaScript object used as a table (`frontCameraRequests`,
  `deviceGalleries`, ...) is a `List (String × α)` in key-insertion order;
  assignment, in-place field mutation and `delete` are `setKey`, `modKey`
  and `removeKey`.
* Display timestamps (`formatSimpleTime(Date.now())`) carry no invariant
  (the spec excludes the TimeFormatter from the core), so handlers take the
  clock reading as a `Nat` parameter `now` and store it unformatted.
* `parseFloat` on latitude/longitude/accuracy/... is elided: IEEE floats are
  outside this embedding and no claim observes the parsed numeric value;
  the raw (truthy) body value is stored instead.
* multer's `upload.single(...)` stage runs before each upload handler: on a
  storage error the handler is skipped and Express falls through to the
  error-handling middleware.  An upload route is therefore modelled as
  `Except MulterErr (Option StoredFile) → ...`: `.error` is a failed file
  write (or rejected file), `.ok none` is a request without a file field,
  `.ok (some f)` is a stored file.  An exception thrown by collaborator
  calls inside the handler body (`req.protocol` / `req.get('host')`, the
  first statements after the ledger lookup) is modelled by an optional
  `bodyErr` argument consumed exactly at that program point, whose `some`
  case takes the handler's `catch` branch.
-/

/-- A JavaScript/JSON value as it appears in a request body.  Numbers are
modelled as integers: every numeric value a claim exercises is integral. -/
inductive JsVal where
  | undef : JsVal
  | null : JsVal
  | bool : Bool → JsVal
  | num : Int → JsVal
  | str : String → JsVal
deriving DecidableEq

/-- JavaScript truthiness: `undefined`, `null`, `false`, `0` and `""` are
falsy, everything else is truthy. -/
def truthy : JsVal → Bool
  | .undef => false
  | .null => false
  | .bool b => b
  | .num n => n != 0
  | .str s => s != ""

/-- The JavaScript `||` defaulting idiom: `v || d`. -/
def jsOr (v d : JsVal) : JsVal := if truthy v then v else d

/-- The JavaScript conditional-or-null idiom `v ? v : null` used for the
optional numeric telemetry fields (`accuracy ? parseFloat(accuracy) : null`). -/
def condOrNull (v : JsVal) : JsVal := if truthy v then v else .null

/-- JavaScript property-key coercion: `obj[k]` converts `k` to a string. -/
def asKey : JsVal → String
  | .undef => "undefined"
  | .null => "null"
  | .bool true => "true"
  | .bool false => "false"
  | .num n => toString n
  | .str s => s

/-- Lookup in an object modelled as a key/value list (`obj[k]`). -/
def findVal : List (String × α) → String → Option α
  | [], _ => none
  | (k', v) :: rest, k => if k' = k then some v else findVal rest k

/-- Object assignment `obj[k] = v`: replaces the value at an existing key in
place, otherwise appends the key (JavaScript preserves insertion order). -/
def setKey : List (String × α) → String → α → List (String × α)
  | [], k, v => [(k, v)]
  | (k', v') :: rest, k, v =>
      if k' = k then (k, v) :: rest else (k', v') :: setKey rest k v

/-- In-place mutation of the object stored at an existing key
(`obj[k].field = ...`); a no-op when the key is absent. -/
def modKey : List (String × α) → String → (α → α) → List (String × α)
  | [], _, _ => []
  | (k', v') :: rest, k, f =>
      if k' = k then (k, f v') :: rest else (k', v') :: modKey rest k f

/-- The JavaScript `delete obj[k]` operator. -/
def removeKey (m : List (String × α)) (k : String) : List (String × α) :=
  m.filter (fun p => p.1 ≠ k)

/-- `array.find(...)`-and-mutate: JavaScript `find` returns a reference to the
first matching element, which the handlers then mutate in place. -/
def updateFirst (p : α → Bool) (f : α → α) : List α → List α
  | [] => []
  | a :: rest => if p a then f a :: rest else a :: updateFirst p f rest

/-- A stored location fix (`locationData`, src/server.js lines 1212-1223).
`formattedTime` (display only) is elided. -/
structure LocationFix where
  latitude : JsVal
  longitude : JsVal
  accuracy : JsVal
  speed : JsVal
  bearing : JsVal
  altitude : JsVal
  timestamp : JsVal
  updateType : JsVal
  provider : JsVal
deriving DecidableEq

/-- A stored notification (`notificationData`, src/server.js lines 1288-1298).
`formattedTime` (display only) is elided. -/
structure Notif where
  id : String
  packageName : JsVal
  appName : JsVal
  title : JsVal
  text : JsVal
  timestamp : JsVal
  category : JsVal
  priority : JsVal
deriving DecidableEq

/-- A gallery entry (`imageData` / `cameraImageData`).  `requestId` is the raw
body value linking a camera capture back to its request; it is `none` on the
plain gallery/screenshot paths. -/
structure MediaItem where
  filename : String
  originalName : String
  path : String
  size : Nat
  uploadedAt : Nat
  type : String
  requestId : Option JsVal := none
  url : Option String := none
deriving DecidableEq

/-- A reported gallery change (src/server.js lines 1971-1977). -/
structure ChangeEvent where
  action : JsVal
  imagePath : JsVal
  imageType : JsVal
  timestamp : JsVal
  reportedAt : Nat
deriving DecidableEq

/-- A device record as created by `POST /api/register` (src/server.js lines
1096-1103).  `lastLocation` / `lastNotification` are attached later by the
telemetry handlers; `none` models the field being absent from the object. -/
structure Device where
  id : JsVal
  deviceName : JsVal
  batteryLevel : JsVal
  status : String
  lastConnected : Nat
  connectedAt : Nat
  lastLocation : Option LocationFix := none
  lastNotification : Option Notif := none
deriving DecidableEq

/-- A front-camera capture request (src/server.js lines 1671-1680).
`capturedAt` and `filename` are attached on fulfillment. -/
structure CamRequest where
  deviceId : JsVal
  parentalDeviceId : JsVal
  requestId : JsVal
  status : String
  requestedAt : Nat
  timestamp : Nat
  imageUrl : Option String := none
  message : Option String := none
  capturedAt : Option Nat := none
  filename : Option String := none
deriving DecidableEq

/-- The stored-file descriptor produced by multer (`req.file`). -/
structure StoredFile where
  filename : String
  originalname : String
  path : String
  size : Nat
deriving DecidableEq

/-- An error raised by the multer stage (failed file write, rejected file,
oversized file). -/
structure MulterErr where
  limitFileSize : Bool
  message : String
deriving DecidableEq

/-- The claim-relevant part of a JSON response: HTTP status code, the
`success` flag, the `error` message, and (for the camera endpoints) the
returned request id and request status. -/
structure Resp where
  status : Nat
  success : Bool
  error : Option String := none
  requestId : Option JsVal := none
  reqStatus : Option String := none
deriving DecidableEq

/-- The gallery entry appended by a successful front-camera upload
(`cameraImageData`, src/server.js lines 1745-1754). -/
def camItem (f : StoredFile) (origin : String) (now : Nat) (rid : JsVal) : MediaItem :=
  { filename := f.filename, originalName := f.originalname, path := f.path,
    size := f.size, uploadedAt := now, type := "front_camera",
    requestId := some rid, url := some (origin ++ "/uploads/" ++ f.filename) }

/-- The ledger mutation applied by a successful front-camera upload
(src/server.js lines 1733-1736). -/
def captureMut (f : StoredFile) (origin : String) (now : Nat) (r : CamRequest) : CamRequest :=
  { r with status := "captured",
           imageUrl := some (origin ++ "/uploads/" ++ f.filename),
           capturedAt := some now, filename := some f.filename }

/-- The ledger mutation applied by the upload handler's catch block
(src/server.js lines 1772-1775). -/
def failMut (msg : String) (r : CamRequest) : CamRequest :=
  { r with status := "failed", message := some msg }

namespace Srv

/-- The module-level stores of the second src/server.js snapshot
(lines 949-954). -/
structure State where
  connectedDevices : List Device
  deviceGalleries : List (String × List MediaItem)
  deviceLocations : List (String × List LocationFix)
  galleryChanges : List (String × List ChangeEvent)
  deviceNotifications : List (String × List Notif)
  frontCameraRequests : List (String × CamRequest)
deriving DecidableEq

/-- The stores at process start: all empty. -/
def initState : State :=
  { connectedDevices := [], deviceGalleries := [], deviceLocations := [],
    galleryChanges := [], deviceNotifications := [], frontCameraRequests := [] }

/-- `POST /api/register` (src/server.js lines 1083-1123): validates
`deviceId`, then removes any existing record with that id and pushes a fresh
record built from the supplied fields and defaults. -/
def register (s : State) (deviceId deviceName batteryLevel : JsVal)
    (now : Nat) : Resp × State :=
  if !truthy deviceId then
    ({ status := 400, success := false, error := some "Device ID is required" }, s)
  else
    let newDevice : Device :=
      { id := deviceId
        deviceName := jsOr deviceName (.str "Child Device")
        batteryLevel := jsOr batteryLevel (.num 50)
        status := "online"
        lastConnected := now
        connectedAt := now }
    let devices := (s.connectedDevices.filter (fun d => d.id != deviceId)) ++ [newDevice]
    ({ status := 200, success := true }, { s with connectedDevices := devices })

/-- `POST /api/battery-update` (src/server.js lines 1126-1172): find-by-id;
if found, mutate the record in place, else push a new record.  Note the
create branch stores the raw `batteryLevel` body value. -/
def batteryUpdate (s : State) (deviceId deviceName batteryLevel : JsVal)
    (now : Nat) : Resp × State :=
  if !truthy deviceId then
    ({ status := 400, success := false, error := some "Device ID is required" }, s)
  else if s.connectedDevices.any (fun d => d.id == deviceId) then
    let devices := updateFirst (fun d => d.id == deviceId)
      (fun d => { d with batteryLevel := batteryLevel
                         deviceName := jsOr deviceName d.deviceName
                         lastConnected := now
                         status := "online" }) s.connectedDevices
    ({ status := 200, success := true }, { s with connectedDevices := devices })
  else
    let device : Device :=
      { id := deviceId
        deviceName := jsOr deviceName (.str "Child Device")
        batteryLevel := batteryLevel
        status := "online"
        lastConnected := now
        connectedAt := now }
    ({ status := 200, success := true },
     { s with connectedDevices := s.connectedDevices ++ [device] })

/-- Re-bound a location history to the last 100 entries
(`slice(-100)`, src/server.js lines 1226-1228). -/
def boundLocations (l : List LocationFix) : List LocationFix :=
  if l.length > 100 then l.drop (l.length - 100) else l

/-- `POST /api/location-update` (src/server.js lines 1175-1251): validates
`deviceId` and the truthiness of `latitude`/`longitude`, appends a fix to the
per-device history bounded to 100, and refreshes the device snapshot if the
device is registered (this snapshot's handler does not create devices). -/
def locationUpdate (s : State)
    (deviceId deviceName latitude longitude accuracy speed bearing altitude
     timestamp updateType provider : JsVal) (now : Nat) : Resp × State :=
  if !truthy deviceId then
    ({ status := 400, success := false, error := some "Device ID is required" }, s)
  else if !truthy latitude || !truthy longitude then
    ({ status := 400, success := false,
       error := some "Latitude and longitude are required" }, s)
  else
    let fix : LocationFix :=
      { latitude := latitude
        longitude := longitude
        accuracy := condOrNull accuracy
        speed := condOrNull speed
        bearing := condOrNull bearing
        altitude := condOrNull altitude
        timestamp := jsOr timestamp (.num now)
        updateType := jsOr updateType (.str "LIVE_UPDATE")
        provider := jsOr provider (.str "unknown") }
    let key := asKey deviceId
    let hist := boundLocations ((findVal s.deviceLocations key).getD [] ++ [fix])
    let devices := updateFirst (fun d => d.id == deviceId)
      (fun d => { d with lastLocation := some fix
                         lastConnected := now
                         status := "online" }) s.connectedDevices
    ({ status := 200, success := true },
     { s with deviceLocations := setKey s.deviceLocations key hist
              connectedDevices := devices })

/-- The notification record built by the handler
(src/server.js lines 1288-1298). -/
def mkNotif (packageName appName title text timestamp category priority : JsVal)
    (now : Nat) : Notif :=
  { id := toString now
    packageName := jsOr packageName (.str "unknown")
    appName := jsOr appName (.str "Unknown App")
    title := jsOr title (.str "")
    text := jsOr text (.str "")
    timestamp := jsOr timestamp (.num now)
    category := jsOr category (.str "general")
    priority := jsOr priority (.str "normal") }

/-- Prepend a notification and re-bound the history to 200 entries
(`unshift` then `slice(0, 200)`, src/server.js lines 1300-1303). -/
def pushNote (l : List Notif) (n : Notif) : List Notif :=
  let l2 := n :: l
  if l2.length > 200 then l2.take 200 else l2

/-- `POST /api/notification-update` (src/server.js lines 1254-1326):
validates `deviceId` and that a title or text is present, prepends the
notification to the per-device history bounded to 200 newest-first entries,
and refreshes the device snapshot if the device is registered. -/
def notificationUpdate (s : State)
    (deviceId deviceName packageName appName title text timestamp category
     priority : JsVal) (now : Nat) : Resp × State :=
  if !truthy deviceId then
    ({ status := 400, success := false, error := some "Device ID is required" }, s)
  else if !truthy title && !truthy text then
    ({ status := 400, success := false,
       error := some "Notification title or text is required" }, s)
  else
    let notif := mkNotif packageName appName title text timestamp category priority now
    let key := asKey deviceId
    let hist := pushNote ((findVal s.deviceNotifications key).getD []) notif
    let devices := updateFirst (fun d => d.id == deviceId)
      (fun d => { d with lastNotification := some notif
                         lastConnected := now
                         status := "online" }) s.connectedDevices
    ({ status := 200, success := true },
     { s with deviceNotifications := setKey s.deviceNotifications key hist
              connectedDevices := devices })

/-- `POST /api/request-front-camera` (src/server.js lines 1654-1699):
validates only that `deviceId` is truthy (this snapshot performs no
device-registry lookup), chooses the caller-supplied request id or a
generated one (`genId` stands for the `cam_` timestamp+random token), and
inserts a `pending` ledger entry. -/
def requestFrontCamera (s : State) (deviceId parentalDeviceId requestId : JsVal)
    (genId : String) (now : Nat) : Resp × State :=
  if !truthy deviceId then
    ({ status := 400, success := false, error := some "Device ID is required" }, s)
  else
    let camIdVal := jsOr requestId (.str genId)
    let req : CamRequest :=
      { deviceId := deviceId
        parentalDeviceId := parentalDeviceId
        requestId := camIdVal
        status := "pending"
        requestedAt := now
        timestamp := now }
    ({ status := 200, success := true, requestId := some camIdVal,
       reqStatus := some "pending" },
     { s with frontCameraRequests := setKey s.frontCameraRequests (asKey camIdVal) req })

/-- The error-handling middleware (src/server.js lines 2000-2013): a multer
size-limit error gets a dedicated 400, every other error a 500 echoing the
message. -/
def errorMiddleware (e : MulterErr) : Resp :=
  if e.limitFileSize then
    { status := 400, success := false,
      error := some "File too large. Maximum size is 10MB." }
  else { status := 500, success := false, error := some e.message }

/-- The `POST /api/upload-front-camera` handler body (src/server.js lines
1702-1782).  `bodyErr = some msg` models an exception thrown by the
collaborator calls that build `imageUrl` (the first statements after the
ledger lookup); the `catch` block then marks the request `failed` — the
guard `req.body.requestId && frontCameraRequests[req.body.requestId]` holds
on that path because both were just checked. -/
def uploadFrontCamera (s : State) (deviceId requestId : JsVal)
    (file? : Option StoredFile) (origin : String) (now : Nat)
    (bodyErr : Option String) : Resp × State :=
  if !truthy deviceId || !truthy requestId then
    ({ status := 400, success := false,
       error := some "Device ID and Request ID are required" }, s)
  else
    match file? with
    | none =>
        ({ status := 400, success := false,
           error := some "No front camera image uploaded" }, s)
    | some f =>
        let key := asKey requestId
        match findVal s.frontCameraRequests key with
        | none =>
            ({ status := 404, success := false,
               error := some "Camera request not found" }, s)
        | some _ =>
            match bodyErr with
            | some msg =>
                let ledger := modKey s.frontCameraRequests key (failMut msg)
                ({ status := 500, success := false, error := some msg },
                 { s with frontCameraRequests := ledger })
            | none =>
                let ledger := modKey s.frontCameraRequests key (captureMut f origin now)
                let dkey := asKey deviceId
                let gallery := setKey s.deviceGalleries dkey
                  ((findVal s.deviceGalleries dkey).getD []
                    ++ [camItem f origin now requestId])
                ({ status := 200, success := true, requestId := some requestId,
                   reqStatus := some "captured" },
                 { s with frontCameraRequests := ledger, deviceGalleries := gallery })

/-- The full `POST /api/upload-front-camera` route: the multer stage runs
first; on a multer error the handler is skipped and the error middleware
answers with the state untouched. -/
def uploadFrontCameraRoute (s : State) (deviceId requestId : JsVal)
    (fileRes : Except MulterErr (Option StoredFile)) (origin : String)
    (now : Nat) (bodyErr : Option String) : Resp × State :=
  match fileRes with
  | .error e => (errorMiddleware e, s)
  | .ok file? => uploadFrontCamera s deviceId requestId file? origin now bodyErr

/-- The view returned by `GET /api/pending-camera-requests/:deviceId`
(src/server.js lines 1828-1835). -/
structure PendingView where
  requestId : JsVal
  parentalDeviceId : JsVal
  requestedAt : Nat
  timestamp : Nat
deriving DecidableEq

/-- `GET /api/pending-camera-requests/:deviceId` (src/server.js lines
1821-1853): all ledger entries for the device still in `pending` status. -/
def pendingCameraRequests (s : State) (deviceId : String) : List PendingView :=
  ((s.frontCameraRequests.map Prod.snd).filter
      (fun r => r.deviceId == JsVal.str deviceId && r.status == "pending")).map
    (fun r => { requestId := r.requestId
                parentalDeviceId := r.parentalDeviceId
                requestedAt := r.requestedAt
                timestamp := r.timestamp })

/-- The per-device gallery as listed by `GET /api/gallery/:deviceId`. -/
def galleryOf (s : State) (deviceId : String) : List MediaItem :=
  (findVal s.deviceGalleries deviceId).getD []

/-- The per-device notification history as listed by
`GET /api/notifications/:deviceId`. -/
def notifHistoryOf (s : State) (deviceId : String) : List Notif :=
  (findVal s.deviceNotifications deviceId).getD []

/-- One inbound telemetry/registration call, for stating invariants over
operation sequences. -/
inductive Op where
  | register (deviceId deviceName batteryLevel : JsVal) (now : Nat)
  | battery (deviceId deviceName batteryLevel : JsVal) (now : Nat)
  | location (deviceId deviceName latitude longitude accuracy speed bearing
      altitude timestamp updateType provider : JsVal) (now : Nat)
  | notification (deviceId deviceName packageName appName title text timestamp
      category priority : JsVal) (now : Nat)

/-- The state transition of one inbound call. -/
def step (s : State) : Op → State
  | .register d n b t => (register s d n b t).2
  | .battery d n b t => (batteryUpdate s d n b t).2
  | .location d n la lo ac sp be al ts ut pr t =>
      (locationUpdate s d n la lo ac sp be al ts ut pr t).2
  | .notification d n pk ap ti te ts ca pr t =>
      (notificationUpdate s d n pk ap ti te ts ca pr t).2

/-- Running a sequence of inbound calls from process start. -/
def runOps (ops : List Op) : State := ops.foldl step initState

end Srv

namespace Cam2

/-- A capture request of the part_001 second snapshot (lines 1481-1491),
which additionally records the camera facing. -/
structure CamRequest2 where
  deviceId : JsVal
  parentalDeviceId : JsVal
  requestId : JsVal
  status : String
  requestedAt : Nat
  timestamp : Nat
  imageUrl : Option String := none
  message : Option String := none
  cameraType : String
  capturedAt : Option Nat := none
  filename : Option String := none
deriving DecidableEq

/-- The module-level stores of the part_001 second snapshot
(lines 1242-1245). -/
structure State where
  connectedDevices : List Device
  frontCameraRequests : List (String × CamRequest2)
  backCameraRequests : List (String × CamRequest2)
  deviceGalleries : List (String × List MediaItem)
deriving DecidableEq

/-- `POST /api/request-front-camera` of the part_001 second snapshot (lines
1455-1510): unlike the server.js revision, it looks the target device up in
the registry and answers 404 `Device not found` when it is absent; only then
does it insert a `pending` ledger entry (`genId` stands for the generated
`front_cam_` timestamp+random token). -/
def requestFrontCamera (s : State) (deviceId parentalDeviceId requestId : JsVal)
    (genId : String) (now : Nat) : Resp × State :=
  if !truthy deviceId then
    ({ status := 400, success := false, error := some "Device ID is required" }, s)
  else if (s.connectedDevices.find? (fun d => d.id == deviceId)).isNone then
    ({ status := 404, success := false, error := some "Device not found" }, s)
  else
    let camIdVal := jsOr requestId (.str genId)
    let req : CamRequest2 :=
      { deviceId := deviceId
        parentalDeviceId := parentalDeviceId
        requestId := camIdVal
        status := "pending"
        requestedAt := now
        timestamp := now
        cameraType := "front" }
    ({ status := 200, success := true, requestId := some camIdVal,
       reqStatus := some "pending" },
     { s with frontCameraRequests := setKey s.frontCameraRequests (asKey camIdVal) req })

end Cam2

namespace Del1

/-- The module-level stores of the part_001 first snapshot (lines 18-29):
devices, galleries, location histories, gallery changes and notification
histories.  This snapshot predates the camera-request ledger. -/
structure State where
  connectedDevices : List Device
  deviceGalleries : List (String × List MediaItem)
  deviceLocations : List (String × List LocationFix)
  galleryChanges : List (String × List ChangeEvent)
  deviceNotifications : List (String × List Notif)
deriving DecidableEq

/-- `DELETE /api/delete-device` of the part_001 first snapshot (lines
1109-1145): filters the device out of the registry, `delete`s the device's
gallery, location history, gallery-change log and notification history, and
answers 404 when no device record was removed. -/
def deleteDevice (s : State) (deviceId : JsVal) : Resp × State :=
  let initialLength := s.connectedDevices.length
  let devices := s.connectedDevices.filter (fun d => d.id != deviceId)
  let k := asKey deviceId
  let s' : State :=
    { connectedDevices := devices
      deviceGalleries := removeKey s.deviceGalleries k
      deviceLocations := removeKey s.deviceLocations k
      galleryChanges := removeKey s.galleryChanges k
      deviceNotifications := removeKey s.deviceNotifications k }
  if devices.length < initialLength then
    ({ status := 200, success := true }, s')
  else
    ({ status := 404, success := false, error := some "Device not found" }, s')

end Del1

/-- Concrete stored file used by witness instances. -/
def sampleFile : StoredFile :=
  { filename := "a.jpg", originalname := "a.jpg", path := "uploads/a.jpg", size := 3 }

/-- Second concrete stored file used by witness instances. -/
def sampleFile2 : StoredFile :=
  { filename := "b.jpg", originalname := "b.jpg", path := "uploads/b.jpg", size := 4 }

/-- Concrete device record used by witness instances. -/
def sampleDevice : Device :=
  { id := .str "D1", deviceName := .str "Phone", batteryLevel := .num 80,
    status := "online", lastConnected := 0, connectedAt := 0 }

/-- Concrete gallery entry used by witness instances. -/
def sampleItem : MediaItem :=
  { filename := "f.jpg", originalName := "f.jpg", path := "uploads/f.jpg",
    size := 1, uploadedAt := 0, type := "photo" }

/-- Concrete part_001 first-snapshot state with one device and data in every
per-device store, used by witness instances. -/
def sampleDelState : Del1.State :=
  { connectedDevices := [sampleDevice],
    deviceGalleries := [("D1", [sampleItem])],
    deviceLocations := [("D1", [])],
    galleryChanges := [("D1", [])],
    deviceNotifications := [("D1", [])] }

/-- Concrete part_001 second-snapshot state with an empty device registry,
used by witness instances. -/
def sampleCamState : Cam2.State :=
  { connectedDevices := [], frontCameraRequests := [],
    backCameraRequests := [], deviceGalleries := [] }

/-- The pending ledger entry created by the concrete capture request of the
witness instances. -/
def samplePendingReq : CamRequest :=
  { deviceId := .str "D1", parentalDeviceId := .undef, requestId := .str "r1",
    status := "pending", requestedAt := 0, timestamp := 0 }

/-- Concrete server state holding one pending capture request, reached by
running the request handler from process start. -/
def sampleLedgerState : Srv.State :=
  (Srv.requestFrontCamera Srv.initState (.str "D1") .undef (.str "r1") "g" 0).2

/-- Concrete server state in which the capture request has reached the
terminal `captured` status, reached by running the upload route once. -/
def sampleCapturedState : Srv.State :=
  (Srv.uploadFrontCameraRoute sampleLedgerState (.str "D1") (.str "r1")
    (.ok (some sampleFile)) "h" 1 none).2

/-! ### Lemmas about the keyed-object helpers -/

theorem findVal_setKey_self {α} (m : List (String × α)) (k : String) (v : α) :
    findVal (setKey m k v) k = some v := by
  induction m with
  | nil => simp [setKey, findVal]
  | cons p rest ih =>
      obtain ⟨k', v'⟩ := p
      by_cases h : k' = k
      · subst h; simp [setKey, findVal]
      · simp [setKey, findVal, h, ih]

theorem snd_mem_setKey {α} (m : List (String × α)) (k : String) (v : α) :
    v ∈ (setKey m k v).map Prod.snd := by
  induction m with
  | nil => simp [setKey]
  | cons p rest ih =>
      obtain ⟨k', v'⟩ := p
      by_cases h : k' = k
      · subst h; simp [setKey]
      · simp only [setKey, if_neg h, List.map_cons]
        exact List.mem_cons_of_mem _ ih

theorem findVal_modKey_self {α} (m : List (String × α)) (k : String) (f : α → α) :
    findVal (modKey m k f) k = (findVal m k).map f := by
  induction m with
  | nil => simp [modKey, findVal]
  | cons p rest ih =>
      obtain ⟨k', v'⟩ := p
      by_cases h : k' = k
      · subst h; simp [modKey, findVal]
      · simp [modKey, findVal, h, ih]

theorem findVal_removeKey_self {α} (m : List (String × α)) (k : String) :
    findVal (removeKey m k) k = none := by
  induction m with
  | nil => simp [removeKey, findVal]
  | cons p rest ih =>
      obtain ⟨k', v'⟩ := p
      by_cases h : k' = k
      · subst h; simpa [removeKey] using ih
      · simpa [removeKey, findVal, h] using ih

theorem map_updateFirst_of_fixed {α β} (p : α → Bool) (f : α → α) (g : α → β)
    (hf : ∀ a, g (f a) = g a) (l : List α) :
    (updateFirst p f l).map g = l.map g := by
  induction l with
  | nil => rfl
  | cons a rest ih =>
      unfold updateFirst
      cases hp : p a
      · simp [ih]
      · simp [hf]

/-! ### Lemmas about device-id uniqueness -/

theorem filter_ne_then_eq_nil (l : List Device) (v : JsVal) :
    (l.filter (fun d => d.id != v)).filter (fun d => d.id == v) = [] := by
  induction l with
  | nil => rfl
  | cons d rest ih =>
      by_cases h : d.id = v
      · simp only [List.filter_cons, h]
        simp only [bne_self_eq_false, Bool.false_eq_true, if_false]
        exact ih
      · simp only [List.filter_cons, h]
        simp only [bne_iff_ne, ne_eq, h, not_false_eq_true, if_true,
          beq_iff_eq, if_false]
        rw [List.filter_cons]
        simp only [beq_iff_eq, h, if_false]
        exact ih

theorem nodup_ids_filter_push (l : List Device) (nd : Device)
    (h : (l.map Device.id).Nodup) :
    (((l.filter (fun d => d.id != nd.id)) ++ [nd]).map Device.id).Nodup := by
  rw [List.map_append, List.map_singleton, List.nodup_append]
  refine ⟨h.sublist (List.Sublist.map Device.id (List.filter_sublist l)),
    List.nodup_singleton _, ?_⟩
  intro x hx hx2
  simp only [List.mem_singleton] at hx2
  subst hx2
  simp only [List.mem_map] at hx
  obtain ⟨d, hdmem, hdid⟩ := hx
  have h2 := (List.mem_filter.1 hdmem).2
  rw [hdid] at h2
  simp at h2

theorem nodup_ids_append_fresh (l : List Device) (nd : Device)
    (h : (l.map Device.id).Nodup)
    (habs : l.any (fun d => d.id == nd.id) = false) :
    ((l ++ [nd]).map Device.id).Nodup := by
  rw [List.map_append, List.map_singleton, List.nodup_append]
  refine ⟨h, List.nodup_singleton _, ?_⟩
  intro x hx hx2
  simp only [List.mem_singleton] at hx2
  subst hx2
  simp only [List.mem_map] at hx
  obtain ⟨d, hdmem, hdid⟩ := hx
  have hall : ∀ d ∈ l, ¬(d.id == nd.id) = true := by
    simpa [List.any_eq_true] using habs
  exact (hall d hdmem) (by simp [hdid])

/-! ### Equational lemmas for the camera-protocol handlers -/

theorem requestFront_eq (s : Srv.State) (dev rid gen : String) (parental : JsVal)
    (t : Nat) (hdev : dev ≠ "") (hrid : rid ≠ "") :
    Srv.requestFrontCamera s (.str dev) parental (.str rid) gen t
      = ({ status := 200, success := true, requestId := some (.str rid), reqStatus := some "pending" },
         { s with frontCameraRequests := setKey s.frontCameraRequests rid { deviceId := .str dev, parentalDeviceId := parental, requestId := .str rid, status := "pending", requestedAt := t, timestamp := t } }) := by
  have htd : truthy (.str dev) = true := by simp [truthy, hdev]
  have htr : truthy (.str rid) = true := by simp [truthy, hrid]
  unfold Srv.requestFrontCamera
  simp [htd, htr, jsOr, asKey]

theorem uploadRoute_notFound_eq (s : Srv.State) (dev rid : String) (f : StoredFile)
    (origin : String) (now : Nat) (bodyErr : Option String)
    (hdev : dev ≠ "") (hrid : rid ≠ "")
    (hmiss : findVal s.frontCameraRequests rid = none) :
    Srv.uploadFrontCameraRoute s (.str dev) (.str rid) (.ok (some f)) origin now bodyErr
      = ({ status := 404, success := false, error := some "Camera request not found" }, s) := by
  have htd : truthy (.str dev) = true := by simp [truthy, hdev]
  have htr : truthy (.str rid) = true := by simp [truthy, hrid]
  unfold Srv.uploadFrontCameraRoute Srv.uploadFrontCamera
  simp only [htd, htr, Bool.not_true, Bool.or_self, Bool.false_eq_true, if_false,
    asKey, hmiss]

theorem uploadRoute_found_eq (s : Srv.State) (dev rid : String) (f : StoredFile)
    (origin : String) (now : Nat) (req0 : CamRequest)
    (hdev : dev ≠ "") (hrid : rid ≠ "")
    (hfound : findVal s.frontCameraRequests rid = some req0) :
    Srv.uploadFrontCameraRoute s (.str dev) (.str rid) (.ok (some f)) origin now none
      = ({ status := 200, success := true, requestId := some (.str rid), reqStatus := some "captured" },
         { s with frontCameraRequests := modKey s.frontCameraRequests rid (captureMut f origin now), deviceGalleries := setKey s.deviceGalleries dev ((findVal s.deviceGalleries dev).getD [] ++ [camItem f origin now (.str rid)]) }) := by
  have htd : truthy (.str dev) = true := by simp [truthy, hdev]
  have htr : truthy (.str rid) = true := by simp [truthy, hrid]
  unfold Srv.uploadFrontCameraRoute Srv.uploadFrontCamera
  simp only [htd, htr, Bool.not_true, Bool.or_self, Bool.false_eq_true, if_false,
    asKey, hfound]

theorem uploadRoute_bodyErr_eq (s : Srv.State) (dev rid : String) (f : StoredFile)
    (origin : String) (now : Nat) (msg : String) (req0 : CamRequest)
    (hdev : dev ≠ "") (hrid : rid ≠ "")
    (hfound : findVal s.frontCameraRequests rid = some req0) :
    Srv.uploadFrontCameraRoute s (.str dev) (.str rid) (.ok (some f)) origin now (some msg)
      = ({ status := 500, success := false, error := some msg },
         { s with frontCameraRequests := modKey s.frontCameraRequests rid (failMut msg) }) := by
  have htd : truthy (.str dev) = true := by simp [truthy, hdev]
  have htr : truthy (.str rid) = true := by simp [truthy, hrid]
  unfold Srv.uploadFrontCameraRoute Srv.uploadFrontCamera
  simp only [htd, htr, Bool.not_true, Bool.or_self, Bool.false_eq_true, if_false,
    asKey, hfound]

theorem uploadRoute_multer_eq (s : Srv.State) (deviceId requestId : JsVal)
    (e : MulterErr) (origin : String) (now : Nat) (bodyErr : Option String) :
    Srv.uploadFrontCameraRoute s deviceId requestId (.error e) origin now bodyErr
      = (Srv.errorMiddleware e, s) := rfl

/-! ### Claim C6 -/

/-- Claim C6: fulfilling with a requestId that does not exist in the ledger
fails with 404 `Camera request not found`, and the whole state — ledger,
gallery, device table and telemetry histories — is left unchanged by the
call. -/
theorem c6_unknown_id_fulfillment_safe (s : Srv.State) (dev rid : String)
    (f : StoredFile) (origin : String) (now : Nat) (bodyErr : Option String)
    (hdev : dev ≠ "") (hrid : rid ≠ "")
    (hmiss : findVal s.frontCameraRequests rid = none) :
    Srv.uploadFrontCameraRoute s (.str dev) (.str rid) (.ok (some f)) origin now bodyErr
      = ({ status := 404, success := false, error := some "Camera request not found" }, s) :=
  uploadRoute_notFound_eq s dev rid f origin now bodyErr hdev hrid hmiss

/-- Witness for C6: a concrete upload against an id absent from the ledger. -/
theorem c6_unknown_id_fulfillment_safe_witness :
    ("D1" : String) ≠ "" ∧ ("nope" : String) ≠ "" ∧
    findVal Srv.initState.frontCameraRequests "nope" = none ∧
    Srv.uploadFrontCameraRoute Srv.initState (.str "D1") (.str "nope")
        (.ok (some sampleFile)) "http://h" 5 none
      = ({ status := 404, success := false, error := some "Camera request not found" },
         Srv.initState) :=
  ⟨by decide, by decide, by decide,
   c6_unknown_id_fulfillment_safe Srv.initState "D1" "nope" sampleFile "http://h" 5
     none (by decide) (by decide) (by decide)⟩

/-! ### Claim C10 -/

/-- Claim C10: a location update whose latitude or longitude is present but
equal to `0` (or the empty string) is rejected with the 400 response
`Latitude and longitude are required` and the state — in particular the
location history — is unchanged: the required-field check tests JavaScript
truthiness, conflating absent with falsy values. -/
theorem c10_falsy_coordinates_rejected (s : Srv.State)
    (did dn lat lon acc sp br alt ts ut pr : JsVal) (now : Nat)
    (hdev : truthy did = true) :
    (Srv.locationUpdate s did dn (.num 0) lon acc sp br alt ts ut pr now
      = ({ status := 400, success := false,
           error := some "Latitude and longitude are required" }, s)) ∧
    (Srv.locationUpdate s did dn (.str "") lon acc sp br alt ts ut pr now
      = ({ status := 400, success := false,
           error := some "Latitude and longitude are required" }, s)) ∧
    (Srv.locationUpdate s did dn lat (.num 0) acc sp br alt ts ut pr now
      = ({ status := 400, success := false,
           error := some "Latitude and longitude are required" }, s)) ∧
    (Srv.locationUpdate s did dn lat (.str "") acc sp br alt ts ut pr now
      = ({ status := 400, success := false,
           error := some "Latitude and longitude are required" }, s)) := by
  have h0 : truthy (.num 0) = false := by decide
  have hs : truthy (.str "") = false := by decide
  unfold Srv.locationUpdate
  simp [hdev, h0, hs]

/-- Witness for C10: a concrete equator-latitude update is refused. -/
theorem c10_falsy_coordinates_rejected_witness :
    truthy (.str "D1") = true ∧
    Srv.locationUpdate Srv.initState (.str "D1") .undef (.num 0) (.num 77)
        .undef .undef .undef .undef .undef .undef .undef 3
      = ({ status := 400, success := false,
           error := some "Latitude and longitude are required" }, Srv.initState) :=
  ⟨by decide,
   (c10_falsy_coordinates_rejected Srv.initState (.str "D1") .undef (.num 5)
      (.num 77) .undef .undef .undef .undef .undef .undef .undef 3 (by decide)).1⟩

/-! ### Claim C8 -/

/-- Claim C8: in the part_001 camera revision, a capture request naming a
deviceId with no record in the device registry fails with 404
`Device not found` and no pending request is inserted (the state is
returned unchanged). -/
theorem c8_request_validates_device (s : Cam2.State) (did parental rid : JsVal)
    (gen : String) (now : Nat)
    (hdev : truthy did = true)
    (habs : ∀ d ∈ s.connectedDevices, d.id ≠ did) :
    Cam2.requestFrontCamera s did parental rid gen now
      = ({ status := 404, success := false, error := some "Device not found" }, s) := by
  have hfind : s.connectedDevices.find? (fun d => d.id == did) = none := by
    rw [List.find?_eq_none]
    intro d hd
    simpa using habs d hd
  unfold Cam2.requestFrontCamera
  simp [hdev, hfind]

/-- Witness for C8: a concrete request against an empty registry. -/
theorem c8_request_validates_device_witness :
    truthy (.str "D1") = true ∧
    (∀ d ∈ sampleCamState.connectedDevices, d.id ≠ .str "D1") ∧
    Cam2.requestFrontCamera sampleCamState (.str "D1") .undef (.str "r1") "g" 0
      = ({ status := 404, success := false, error := some "Device not found" },
         sampleCamState) :=
  ⟨by decide, by decide,
   c8_request_validates_device sampleCamState (.str "D1") .undef (.str "r1") "g" 0
     (by decide) (by decide)⟩

/-! ### Claim C7 -/

/-- Claim C7: after a successful `DELETE /api/delete-device`, the device list
excludes the deleted id and every per-device store of the snapshot — gallery,
location history, gallery-change log and notification history — is empty for
that id.  The snapshots that implement delete-device predate the
capture-request ledger, so there are no ledger entries to clear. -/
theorem c7_cascading_delete (s : Del1.State) (did : JsVal)
    (hsucc : (Del1.deleteDevice s did).1.success = true) :
    ((Del1.deleteDevice s did).2.connectedDevices.all (fun d => d.id != did) = true) ∧
    findVal (Del1.deleteDevice s did).2.deviceGalleries (asKey did) = none ∧
    findVal (Del1.deleteDevice s did).2.deviceLocations (asKey did) = none ∧
    findVal (Del1.deleteDevice s did).2.galleryChanges (asKey did) = none ∧
    findVal (Del1.deleteDevice s did).2.deviceNotifications (asKey did) = none := by
  have hsnd : (Del1.deleteDevice s did).2 = { connectedDevices := s.connectedDevices.filter (fun d => d.id != did), deviceGalleries := removeKey s.deviceGalleries (asKey did), deviceLocations := removeKey s.deviceLocations (asKey did), galleryChanges := removeKey s.galleryChanges (asKey did), deviceNotifications := removeKey s.deviceNotifications (asKey did) } := by
    simp only [Del1.deleteDevice]
    split <;> rfl
  rw [hsnd]
  refine ⟨?_, findVal_removeKey_self _ _, findVal_removeKey_self _ _,
    findVal_removeKey_self _ _, findVal_removeKey_self _ _⟩
  rw [List.all_eq_true]
  intro d hd
  exact (List.mem_filter.1 hd).2

/-- Witness for C7: deleting a concrete device with data in every store. -/
theorem c7_cascading_delete_witness :
    ((Del1.deleteDevice sampleDelState (.str "D1")).1.success = true) ∧
    (((Del1.deleteDevice sampleDelState (.str "D1")).2.connectedDevices.all
        (fun d => d.id != .str "D1") = true) ∧
     findVal (Del1.deleteDevice sampleDelState (.str "D1")).2.deviceGalleries
        (asKey (.str "D1")) = none ∧
     findVal (Del1.deleteDevice sampleDelState (.str "D1")).2.deviceLocations
        (asKey (.str "D1")) = none ∧
     findVal (Del1.deleteDevice sampleDelState (.str "D1")).2.galleryChanges
        (asKey (.str "D1")) = none ∧
     findVal (Del1.deleteDevice sampleDelState (.str "D1")).2.deviceNotifications
        (asKey (.str "D1")) = none) :=
  ⟨by decide, c7_cascading_delete sampleDelState (.str "D1") (by decide)⟩

/-! ### Claim C2 -/

theorem register_filter_self (s : Srv.State) (did dn bl : JsVal) (t : Nat)
    (hdev : truthy did = true) :
    (Srv.register s did dn bl t).2.connectedDevices.filter (fun d => d.id == did)
      = [{ id := did, deviceName := jsOr dn (.str "Child Device"), batteryLevel := jsOr bl (.num 50), status := "online", lastConnected := t, connectedAt := t }] := by
  unfold Srv.register
  simp only [hdev, Bool.not_true, Bool.false_eq_true, if_false, List.filter_append]
  rw [filter_ne_then_eq_nil]
  simp

/-- Counterexample for Claim C2: registering `D1` with name `Phone` and
battery 80, then registering `D1` again with neither field supplied, reverts
`batteryLevel` to the default 50 and `deviceName` to `Child Device` — the
second call replaces the record instead of merging into it. -/
theorem c2_register_counterexample :
    ((Srv.register Srv.initState (.str "D1") (.str "Phone") (.num 80) 0).2.connectedDevices.map
        Device.batteryLevel = [JsVal.num 80]) ∧
    ((Srv.register Srv.initState (.str "D1") (.str "Phone") (.num 80) 0).2.connectedDevices.map
        Device.deviceName = [JsVal.str "Phone"]) ∧
    ((Srv.register (Srv.register Srv.initState (.str "D1") (.str "Phone") (.num 80) 0).2
        (.str "D1") .undef .undef 1).2.connectedDevices.map Device.batteryLevel
      = [JsVal.num 50]) ∧
    ((Srv.register (Srv.register Srv.initState (.str "D1") (.str "Phone") (.num 80) 0).2
        (.str "D1") .undef .undef 1).2.connectedDevices.map Device.deviceName
      = [JsVal.str "Child Device"]) := by decide

/-- Claim C2 (amended): calling register twice with the same deviceId leaves
exactly one Device record for that id, but the second call replaces the
record wholesale — every field is rebuilt from the second call's body, with
the defaults (`Child Device`, battery 50, fresh `connectedAt`) substituted
for fields it does not supply. -/
theorem c2_register_upsert_replaces (s : Srv.State) (did dn bl dn' bl' : JsVal)
    (t t' : Nat) (hdev : truthy did = true) :
    ((Srv.register (Srv.register s did dn bl t).2 did dn' bl' t').2.connectedDevices.filter
        (fun d => d.id == did)
      = [{ id := did, deviceName := jsOr dn' (.str "Child Device"), batteryLevel := jsOr bl' (.num 50), status := "online", lastConnected := t', connectedAt := t' }]) ∧
    ((Srv.register (Srv.register s did dn bl t).2 did dn' bl' t').2.connectedDevices.filter
        (fun d => d.id == did)).length = 1 := by
  have h := register_filter_self (Srv.register s did dn bl t).2 did dn' bl' t' hdev
  exact ⟨h, by rw [h]; rfl⟩

/-- Witness for C2 (amended) at concrete inputs. -/
theorem c2_register_upsert_replaces_witness :
    truthy (.str "D1") = true ∧
    (((Srv.register (Srv.register Srv.initState (.str "D1") (.str "Phone") (.num 80) 0).2
          (.str "D1") .undef .undef 1).2.connectedDevices.filter
          (fun d => d.id == .str "D1")
        = [{ id := .str "D1", deviceName := jsOr .undef (.str "Child Device"), batteryLevel := jsOr .undef (.num 50), status := "online", lastConnected := 1, connectedAt := 1 }]) ∧
     ((Srv.register (Srv.register Srv.initState (.str "D1") (.str "Phone") (.num 80) 0).2
          (.str "D1") .undef .undef 1).2.connectedDevices.filter
          (fun d => d.id == .str "D1")).length = 1) :=
  ⟨by decide,
   c2_register_upsert_replaces Srv.initState (.str "D1") (.str "Phone") (.num 80)
     .undef .undef 0 1 (by decide)⟩

/-! ### Claim C4 -/

/-- Counterexample for Claim C4: after the request `r1` reaches the terminal
`captured` status, a second upload with the same requestId mutates the
record again — the stored filename changes from `a.jpg` to `b.jpg`,
`capturedAt` is refreshed, and a second gallery item is appended. -/
theorem c4_terminal_not_final_counterexample :
    ((findVal sampleCapturedState.frontCameraRequests "r1").map CamRequest.status
      = some "captured") ∧
    ((findVal sampleCapturedState.frontCameraRequests "r1").map CamRequest.filename
      = some (some "a.jpg")) ∧
    ((findVal (Srv.uploadFrontCameraRoute sampleCapturedState (.str "D1") (.str "r1")
          (.ok (some sampleFile2)) "h" 2 none).2.frontCameraRequests "r1").map
        CamRequest.filename = some (some "b.jpg")) ∧
    ((findVal (Srv.uploadFrontCameraRoute sampleCapturedState (.str "D1") (.str "r1")
          (.ok (some sampleFile2)) "h" 2 none).2.frontCameraRequests "r1").map
        CamRequest.capturedAt = some (some 2)) ∧
    (Srv.galleryOf (Srv.uploadFrontCameraRoute sampleCapturedState (.str "D1") (.str "r1")
          (.ok (some sampleFile2)) "h" 2 none).2 "D1").length = 2 ∧
    findVal (Srv.uploadFrontCameraRoute sampleCapturedState (.str "D1") (.str "r1")
          (.ok (some sampleFile2)) "h" 2 none).2.frontCameraRequests "r1"
      ≠ findVal sampleCapturedState.frontCameraRequests "r1" := by decide

/-- Claim C4 (amended): the upload handler never inspects the current status.
Fulfilling an existing request — whatever its status, including the terminal
`captured` and `failed` — unconditionally rewrites the record to `captured`
with the new file's data and appends another gallery item: resubmitting the
same requestId overwrites the request instead of being rejected. -/
theorem c4_refulfill_overwrites (s : Srv.State) (dev rid : String) (f : StoredFile)
    (origin : String) (now : Nat) (req0 : CamRequest)
    (hdev : dev ≠ "") (hrid : rid ≠ "")
    (hfound : findVal s.frontCameraRequests rid = some req0) :
    ((Srv.uploadFrontCameraRoute s (.str dev) (.str rid) (.ok (some f)) origin now none).1.success
      = true) ∧
    (findVal (Srv.uploadFrontCameraRoute s (.str dev) (.str rid) (.ok (some f)) origin
          now none).2.frontCameraRequests rid
      = some (captureMut f origin now req0)) ∧
    (Srv.galleryOf (Srv.uploadFrontCameraRoute s (.str dev) (.str rid) (.ok (some f)) origin
          now none).2 dev
      = Srv.galleryOf s dev ++ [camItem f origin now (.str rid)]) := by
  rw [uploadRoute_found_eq s dev rid f origin now req0 hdev hrid hfound]
  refine ⟨rfl, ?_, ?_⟩
  · rw [findVal_modKey_self, hfound]
    rfl
  · unfold Srv.galleryOf
    rw [findVal_setKey_self]
    rfl

/-- Witness for C4 (amended): re-fulfilling the already-captured request. -/
theorem c4_refulfill_overwrites_witness :
    ("D1" : String) ≠ "" ∧ ("r1" : String) ≠ "" ∧
    (findVal sampleCapturedState.frontCameraRequests "r1"
      = some (captureMut sampleFile "h" 1 samplePendingReq)) ∧
    (((Srv.uploadFrontCameraRoute sampleCapturedState (.str "D1") (.str "r1")
          (.ok (some sampleFile2)) "h" 2 none).1.success = true) ∧
     (findVal (Srv.uploadFrontCameraRoute sampleCapturedState (.str "D1") (.str "r1")
          (.ok (some sampleFile2)) "h" 2 none).2.frontCameraRequests "r1"
        = some (captureMut sampleFile2 "h" 2 (captureMut sampleFile "h" 1 samplePendingReq))) ∧
     (Srv.galleryOf (Srv.uploadFrontCameraRoute sampleCapturedState (.str "D1") (.str "r1")
          (.ok (some sampleFile2)) "h" 2 none).2 "D1"
        = Srv.galleryOf sampleCapturedState "D1" ++ [camItem sampleFile2 "h" 2 (.str "r1")])) :=
  ⟨by decide, by decide, by decide,
   c4_refulfill_overwrites sampleCapturedState "D1" "r1" sampleFile2 "h" 2
     (captureMut sampleFile "h" 1 samplePendingReq) (by decide) (by decide) (by decide)⟩

/-! ### Claim C5 -/

/-- Counterexample for Claim C5: a failed file write is a multer-stage error,
which skips the upload handler entirely — the error middleware answers 500
and the existing capture request is left in `pending`, not `failed`. -/
theorem c5_failed_write_leaves_pending_counterexample :
    ((Srv.uploadFrontCameraRoute sampleLedgerState (.str "D1") (.str "r1")
        (.error { limitFileSize := false, message := "disk write failed" }) "h" 1 none).1.status
      = 500) ∧
    ((Srv.uploadFrontCameraRoute sampleLedgerState (.str "D1") (.str "r1")
        (.error { limitFileSize := false, message := "disk write failed" }) "h" 1 none).2
      = sampleLedgerState) ∧
    ((findVal (Srv.uploadFrontCameraRoute sampleLedgerState (.str "D1") (.str "r1")
          (.error { limitFileSize := false, message := "disk write failed" }) "h" 1
          none).2.frontCameraRequests "r1").map CamRequest.status
      = some "pending") := by decide

/-- Claim C5 (amended): an error thrown inside the upload handler during
fulfillment of an existing request does transition it to `failed` with the
reason recorded while the HTTP response reports 500; but an error in the
multer file-write stage never reaches the handler — the error middleware
answers and the whole state, the pending request included, is unchanged. -/
theorem c5_failure_recording (s : Srv.State) (dev rid : String) (f : StoredFile)
    (origin : String) (now : Nat) (msg : String) (req0 : CamRequest)
    (hdev : dev ≠ "") (hrid : rid ≠ "")
    (hfound : findVal s.frontCameraRequests rid = some req0) :
    ((Srv.uploadFrontCameraRoute s (.str dev) (.str rid) (.ok (some f)) origin now
        (some msg)).1
      = { status := 500, success := false, error := some msg }) ∧
    (findVal (Srv.uploadFrontCameraRoute s (.str dev) (.str rid) (.ok (some f)) origin now
          (some msg)).2.frontCameraRequests rid
      = some (failMut msg req0)) ∧
    (∀ e : MulterErr,
      Srv.uploadFrontCameraRoute s (.str dev) (.str rid) (.error e) origin now none
        = (Srv.errorMiddleware e, s)) := by
  rw [uploadRoute_bodyErr_eq s dev rid f origin now msg req0 hdev hrid hfound]
  refine ⟨rfl, ?_, fun e => rfl⟩
  rw [findVal_modKey_self, hfound]
  rfl

/-- Witness for C5 (amended) at concrete inputs. -/
theorem c5_failure_recording_witness :
    ("D1" : String) ≠ "" ∧ ("r1" : String) ≠ "" ∧
    (findVal sampleLedgerState.frontCameraRequests "r1" = some samplePendingReq) ∧
    (((Srv.uploadFrontCameraRoute sampleLedgerState (.str "D1") (.str "r1")
          (.ok (some sampleFile)) "h" 1 (some "boom")).1
        = { status := 500, success := false, error := some "boom" }) ∧
     (findVal (Srv.uploadFrontCameraRoute sampleLedgerState (.str "D1") (.str "r1")
          (.ok (some sampleFile)) "h" 1 (some "boom")).2.frontCameraRequests "r1"
        = some (failMut "boom" samplePendingReq)) ∧
     (∀ e : MulterErr,
       Srv.uploadFrontCameraRoute sampleLedgerState (.str "D1") (.str "r1")
           (.error e) "h" 1 none
         = (Srv.errorMiddleware e, sampleLedgerState))) :=
  ⟨by decide, by decide, by decide,
   c5_failure_recording sampleLedgerState "D1" "r1" sampleFile "h" 1 "boom"
     samplePendingReq (by decide) (by decide) (by decide)⟩

/-! ### Claim C3 -/

theorem step_preserves_nodup (s : Srv.State) (op : Srv.Op)
    (h : (s.connectedDevices.map Device.id).Nodup) :
    (((Srv.step s op).connectedDevices).map Device.id).Nodup := by
  cases op with
  | register d n b t =>
      simp only [Srv.step]
      unfold Srv.register
      split
      · exact h
      · exact nodup_ids_filter_push s.connectedDevices
          { id := d, deviceName := jsOr n (JsVal.str "Child Device"), batteryLevel := jsOr b (JsVal.num 50), status := "online", lastConnected := t, connectedAt := t } h
  | battery d n b t =>
      simp only [Srv.step]
      unfold Srv.batteryUpdate
      split
      · exact h
      · split
        · rename_i hany
          simp only
          rw [map_updateFirst_of_fixed]
          · exact h
          · intro a
            rfl
        · rename_i hany
          simp only
          apply nodup_ids_append_fresh s.connectedDevices _ h
          simpa using hany
  | location d n la lo ac sp be al ts ut pr t =>
      simp only [Srv.step]
      unfold Srv.locationUpdate
      split
      · exact h
      · split
        · exact h
        · simp only
          rw [map_updateFirst_of_fixed]
          · exact h
          · intro a
            rfl
  | notification d n pk ap ti te ts ca pr t =>
      simp only [Srv.step]
      unfold Srv.notificationUpdate
      split
      · exact h
      · split
        · exact h
        · simp only
          rw [map_updateFirst_of_fixed]
          · exact h
          · intro a
            rfl

/-- Claim C3: for every sequence of register / battery-update /
location-update / notification-update calls run from process start, the
device table never contains two records with the same id. -/
theorem c3_device_id_unique (ops : List Srv.Op) :
    ((Srv.runOps ops).connectedDevices.map Device.id).Nodup := by
  have hgen : ∀ s : Srv.State, (s.connectedDevices.map Device.id).Nodup →
      ((ops.foldl Srv.step s).connectedDevices.map Device.id).Nodup := by
    induction ops with
    | nil => exact fun s hs => hs
    | cons op rest ih =>
        intro s hs
        exact ih _ (step_preserves_nodup s op hs)
  exact hgen Srv.initState (by simp [Srv.initState])

/-! ### Claim C9 -/

theorem pushNote_eq_take (l : List Notif) (n : Notif) :
    Srv.pushNote l n = (n :: l).take 200 := by
  simp only [Srv.pushNote]
  split
  · rfl
  · rename_i hlen
    exact (List.take_of_length_le (by omega)).symm

theorem foldl_pushNote_eq (ns : List Notif) :
    List.foldl Srv.pushNote [] ns = ns.reverse.take 200 := by
  induction ns using List.reverseRecOn with
  | nil => rfl
  | append_singleton ns n ih =>
      rw [List.foldl_append, List.foldl_cons, List.foldl_nil, ih, pushNote_eq_take,
        List.reverse_append]
      simp only [List.reverse_cons, List.reverse_nil, List.nil_append,
        List.singleton_append]
      have h200 : (200 : Nat) = 199 + 1 := rfl
      rw [h200, List.take_succ_cons, List.take_succ_cons, List.take_take]
      simp

/-- Claim C9: the per-device notification history is maintained newest-first
and bounded to 200 entries with the oldest (the tail) evicted: the handler
stores `pushNote` of the previous history, a sequence of appends yields the
200 most recent notifications in newest-first order, the stored history never
exceeds 200 entries, and appending N1 then N2 yields [N2, N1]. -/
theorem c9_notification_history (s : Srv.State)
    (deviceId deviceName packageName appName title text timestamp category
     priority : JsVal) (now : Nat) (ns : List Notif) (n1 n2 : Notif)
    (hdev : truthy deviceId = true) (htitle : truthy title = true) :
    (Srv.notifHistoryOf (Srv.notificationUpdate s deviceId deviceName packageName
          appName title text timestamp category priority now).2 (asKey deviceId)
      = Srv.pushNote (Srv.notifHistoryOf s (asKey deviceId))
          (Srv.mkNotif packageName appName title text timestamp category priority now)) ∧
    (List.foldl Srv.pushNote [] ns = ns.reverse.take 200) ∧
    ((List.foldl Srv.pushNote [] ns).length ≤ 200) ∧
    (Srv.pushNote (Srv.pushNote [] n1) n2 = [n2, n1]) := by
  refine ⟨?_, foldl_pushNote_eq ns, ?_, ?_⟩
  · unfold Srv.notificationUpdate
    simp only [hdev, htitle, Bool.not_true, Bool.false_and, Bool.false_eq_true,
      if_false]
    unfold Srv.notifHistoryOf
    simp only
    rw [findVal_setKey_self]
    rfl
  · rw [foldl_pushNote_eq]
    exact List.length_take_le _ _
  · have e1 : Srv.pushNote [] n1 = [n1] := by
      rw [pushNote_eq_take]
      exact List.take_of_length_le (by simp)
    rw [e1, pushNote_eq_take]
    exact List.take_of_length_le (by simp)

/-- Witness for C9 at concrete inputs. -/
theorem c9_notification_history_witness :
    truthy (.str "D1") = true ∧ truthy (.str "hi") = true ∧
    ((Srv.notifHistoryOf (Srv.notificationUpdate Srv.initState (.str "D1") .undef
          .undef .undef (.str "hi") .undef .undef .undef .undef 7).2
          (asKey (.str "D1"))
       = Srv.pushNote (Srv.notifHistoryOf Srv.initState (asKey (.str "D1")))
           (Srv.mkNotif .undef .undef (.str "hi") .undef .undef .undef .undef 7)) ∧
     (List.foldl Srv.pushNote [] ([] : List Notif)
       = ([] : List Notif).reverse.take 200) ∧
     ((List.foldl Srv.pushNote [] ([] : List Notif)).length ≤ 200) ∧
     (Srv.pushNote (Srv.pushNote [] (Srv.mkNotif .undef .undef (.str "t1") .undef
            .undef .undef .undef 0))
          (Srv.mkNotif .undef .undef (.str "t2") .undef .undef .undef .undef 1)
       = [Srv.mkNotif .undef .undef (.str "t2") .undef .undef .undef .undef 1,
          Srv.mkNotif .undef .undef (.str "t1") .undef .undef .undef .undef 0])) :=
  ⟨by decide, by decide,
   c9_notification_history Srv.initState (.str "D1") .undef .undef .undef
     (.str "hi") .undef .undef .undef .undef 7 []
     (Srv.mkNotif .undef .undef (.str "t1") .undef .undef .undef .undef 0)
     (Srv.mkNotif .undef .undef (.str "t2") .undef .undef .undef .undef 1)
     (by decide) (by decide)⟩

/-! ### Claim C1 -/

/-- Claim C1: capture-protocol round trip.  Creating a front-camera request
for device `dev` succeeds and stores it with status `pending`; the pending
poll for `dev` lists it; fulfilling it with a stored file succeeds, turns the
status to `captured` with the image reference set, and the same file appears
in the device's gallery tagged `front_camera` with the linking requestId. -/
theorem c1_capture_round_trip (s : Srv.State) (dev rid gen origin : String)
    (parental : JsVal) (f : StoredFile) (t1 t2 : Nat)
    (hdev : dev ≠ "") (hrid : rid ≠ "") :
    ((Srv.requestFrontCamera s (.str dev) parental (.str rid) gen t1).1.success = true) ∧
    ((Srv.requestFrontCamera s (.str dev) parental (.str rid) gen t1).1.reqStatus
      = some "pending") ∧
    ((findVal (Srv.requestFrontCamera s (.str dev) parental (.str rid) gen
          t1).2.frontCameraRequests rid).map CamRequest.status = some "pending") ∧
    ((Srv.pendingCameraRequests (Srv.requestFrontCamera s (.str dev) parental (.str rid)
          gen t1).2 dev).any (fun p => p.requestId == JsVal.str rid) = true) ∧
    ((Srv.uploadFrontCameraRoute (Srv.requestFrontCamera s (.str dev) parental (.str rid)
          gen t1).2 (.str dev) (.str rid) (.ok (some f)) origin t2 none).1.success = true) ∧
    ((findVal (Srv.uploadFrontCameraRoute (Srv.requestFrontCamera s (.str dev) parental
          (.str rid) gen t1).2 (.str dev) (.str rid) (.ok (some f)) origin t2
          none).2.frontCameraRequests rid).map CamRequest.status = some "captured") ∧
    ((findVal (Srv.uploadFrontCameraRoute (Srv.requestFrontCamera s (.str dev) parental
          (.str rid) gen t1).2 (.str dev) (.str rid) (.ok (some f)) origin t2
          none).2.frontCameraRequests rid).map CamRequest.imageUrl
      = some (some (origin ++ "/uploads/" ++ f.filename))) ∧
    ((Srv.galleryOf (Srv.uploadFrontCameraRoute (Srv.requestFrontCamera s (.str dev)
          parental (.str rid) gen t1).2 (.str dev) (.str rid) (.ok (some f)) origin t2
          none).2 dev).any
        (fun m => m.filename == f.filename && m.type == "front_camera"
          && m.requestId == some (JsVal.str rid)) = true) := by
  rw [requestFront_eq s dev rid gen parental t1 hdev hrid]
  simp only
  have hfound : findVal (setKey s.frontCameraRequests rid
      { deviceId := .str dev, parentalDeviceId := parental, requestId := .str rid, status := "pending", requestedAt := t1, timestamp := t1 }) rid
      = some { deviceId := .str dev, parentalDeviceId := parental, requestId := .str rid, status := "pending", requestedAt := t1, timestamp := t1 } :=
    findVal_setKey_self _ _ _
  rw [uploadRoute_found_eq _ dev rid f origin t2 _ hdev hrid hfound]
  simp only
  refine ⟨trivial, trivial, ?_, ?_, trivial, ?_, ?_, ?_⟩
  · rw [hfound]
    rfl
  · apply List.any_eq_true.2
    refine ⟨_, List.mem_map_of_mem _ (List.mem_filter.2 ⟨snd_mem_setKey _ _ _, ?_⟩), ?_⟩
    · simp
    · simp
  · rw [findVal_modKey_self, hfound]
    rfl
  · rw [findVal_modKey_self, hfound]
    rfl
  · unfold Srv.galleryOf
    simp only
    rw [findVal_setKey_self]
    apply List.any_eq_true.2
    refine ⟨camItem f origin t2 (.str rid), List.mem_append_right _ (by simp), ?_⟩
    simp [camItem]

/-- Witness for C1: the round trip at a concrete device, request and file. -/
theorem c1_capture_round_trip_witness :
    ("D1" : String) ≠ "" ∧ ("r1" : String) ≠ "" ∧
    (((Srv.requestFrontCamera Srv.initState (.str "D1") .undef (.str "r1") "g" 0).1.success
       = true) ∧
     ((Srv.requestFrontCamera Srv.initState (.str "D1") .undef (.str "r1") "g" 0).1.reqStatus
       = some "pending") ∧
     ((findVal (Srv.requestFrontCamera Srv.initState (.str "D1") .undef (.str "r1") "g"
           0).2.frontCameraRequests "r1").map CamRequest.status = some "pending") ∧
     ((Srv.pendingCameraRequests (Srv.requestFrontCamera Srv.initState (.str "D1") .undef
           (.str "r1") "g" 0).2 "D1").any (fun p => p.requestId == JsVal.str "r1") = true) ∧
     ((Srv.uploadFrontCameraRoute (Srv.requestFrontCamera Srv.initState (.str "D1") .undef
           (.str "r1") "g" 0).2 (.str "D1") (.str "r1") (.ok (some sampleFile)) "h" 1
           none).1.success = true) ∧
     ((findVal (Srv.uploadFrontCameraRoute (Srv.requestFrontCamera Srv.initState (.str "D1")
           .undef (.str "r1") "g" 0).2 (.str "D1") (.str "r1") (.ok (some sampleFile)) "h" 1
           none).2.frontCameraRequests "r1").map CamRequest.status = some "captured") ∧
     ((findVal (Srv.uploadFrontCameraRoute (Srv.requestFrontCamera Srv.initState (.str "D1")
           .undef (.str "r1") "g" 0).2 (.str "D1") (.str "r1") (.ok (some sampleFile)) "h" 1
           none).2.frontCameraRequests "r1").map CamRequest.imageUrl
       = some (some ("h" ++ "/uploads/" ++ sampleFile.filename))) ∧
     ((Srv.galleryOf (Srv.uploadFrontCameraRoute (Srv.requestFrontCamera Srv.initState
           (.str "D1") .undef (.str "r1") "g" 0).2 (.str "D1") (.str "r1")
           (.ok (some sampleFile)) "h" 1 none).2 "D1").any
         (fun m => m.filename == sampleFile.filename && m.type == "front_camera"
           && m.requestId == some (JsVal.str "r1")) = true)) :=
  ⟨by decide, by decide,
   c1_capture_round_trip Srv.initState "D1" "r1" "g" "h" .undef sampleFile 0 1
     (by decide) (by decide)⟩
